import Mathlib

/-!
# PagerDuty notifier (pkg/services/alerting/pagerduty.go)

A shallow embedding of `NewPagerdutyNotifier` and `PagerdutyNotifier.Notify`.
Effects of `Notify` (metric counter, logger, rule-URL resolver, webhook bus) are
made explicit: the counter and an ordered effect trace live in `World`, the
collaborators that are not part of the file live in `Env`.
-/

namespace Pagerduty

/-! ## Data model -/

/-- Dynamic values held by a `simplejson.Json` (the `interface{}` payload):
null, booleans, numbers (kept as their `json.Number` text), strings, slices and
string-keyed maps. A map is an association list without duplicate keys. -/
inductive Json where
  | null : Json
  | bool (b : Bool) : Json
  | num (n : String) : Json
  | str (s : String) : Json
  | arr (xs : List Json) : Json
  | obj (kvs : List (String × Json)) : Json

/-- Map assignment `m[key] = val` on an association list: overwrite the entry
of `key` if there is one, otherwise add it. -/
def setKey (key : String) (val : Json) : List (String × Json) → List (String × Json)
  | [] => [(key, val)]
  | (k, v) :: rest =>
    if k = key then (key, val) :: rest else (k, v) :: setKey key val rest

/-- Map lookup `m[key]` on an association list. -/
def lookupKey (key : String) : List (String × Json) → Option Json
  | [] => none
  | (k, v) :: rest => if k = key then some v else lookupKey key rest

namespace Json

/-- The call `simplejson.New()`: an empty map. -/
def New : Json := obj []

/-- The method `Json.Set(key, val)`: assigns in the map; does nothing when the
receiver does not hold a map. -/
def Set (j : Json) (key : String) (val : Json) : Json :=
  match j with
  | obj kvs => obj (setKey key val kvs)
  | other => other

/-- The method `Json.Get(key)`: the value under `key` when the receiver holds a
map that has the key, and a `Json` holding nil otherwise. -/
def Get (j : Json) (key : String) : Json :=
  match j with
  | obj kvs =>
    match lookupKey key kvs with
    | some v => v
    | none => null
  | _ => null

/-- The method `Json.MustBool(def)`: the boolean held, or `dflt` when the
value is not a boolean. -/
def MustBool (j : Json) (dflt : Bool) : Bool :=
  match j with
  | bool b => b
  | _ => dflt

/-- The method `Json.MustString()` without argument: the string held, or the
empty string when the value is not a string. -/
def MustString (j : Json) : String :=
  match j with
  | str s => s
  | _ => ""

/-- Keys of a map value, in assignment order; no keys for any other value. -/
def keys (j : Json) : List String :=
  match j with
  | obj kvs => kvs.map Prod.fst
  | _ => []

/-- Raw map lookup: `none` when the key is not present (or the value is not a
map), so that absence and a stored null stay distinct. -/
def field (j : Json) (key : String) : Option Json :=
  match j with
  | obj kvs => lookupKey key kvs
  | _ => none

end Json

/-- Go `error` values seen by this file. `ValidationError` is the one error
type the file constructs; `errorString` stands for the errors produced by
collaborators (`errors.New`).

Modelled from the spec: `UnknownChannelType`, `LinkResolutionError` and
`DeliveryError` are the remaining members of the error taxonomy of the
specification (section 7); no declaration of them is part of the source. -/
inductive GoError where
  | ValidationError (Reason : String) : GoError
  | errorString (s : String) : GoError
  | UnknownChannelType : GoError
  | LinkResolutionError : GoError
  | DeliveryError (channel : String) (cause : GoError) : GoError
  deriving DecidableEq

/-- The type `m.AlertStateType`: a Go string type. -/
abbrev AlertStateType := String

/-- Modelled from the spec: the constant `m.AlertStateOK` of the models
package (state `OK` of the rule states OK / Alerting / NoData / Error /
Pending); the models package is not part of the source. -/
def AlertStateOK : AlertStateType := "ok"

/-- An IEEE-754 binary64 value, as the exact number it denotes:
`finite neg mant exp` is `(-1)^neg * mant * 2^exp`. -/
inductive Float64 where
  | nan : Float64
  | inf (neg : Bool) : Float64
  | finite (neg : Bool) (mant : Nat) (exp : Int) : Float64
  deriving DecidableEq

/-- The value `mant * 2^exp` in hundredths, rounded to the nearest integer,
ties to even. -/
def roundHundredths (mant : Nat) (exp : Int) : Nat :=
  match exp with
  | Int.ofNat e => mant * 2 ^ e * 100
  | Int.negSucc e =>
    let d := 2 ^ (e + 1)
    let q := mant * 100 / d
    let r := mant * 100 % d
    if d < 2 * r ∨ (2 * r = d ∧ q % 2 = 1) then q + 1 else q

/-- Two decimal places of a number of hundredths. -/
def twoDigits (n : Nat) : String :=
  if n % 100 < 10 then "0" ++ Nat.repr (n % 100) else Nat.repr (n % 100)

/-- The call `strconv.FormatFloat(v, 'f', 2, 64)`: fixed notation with exactly
two digits after the point, correctly rounded (ties to even) from the exact
binary value; the sign of a negative value (negative zero included) is kept. -/
def FormatFloat (v : Float64) : String :=
  match v with
  | Float64.nan => "NaN"
  | Float64.inf false => "+Inf"
  | Float64.inf true => "-Inf"
  | Float64.finite neg mant exp =>
    let h := roundHundredths mant exp
    (if neg then "-" else "") ++ Nat.repr (h / 100) ++ "." ++ twoDigits h

/-- The call `strconv.FormatInt(i, 10)`: decimal digits, with a leading minus
sign for a negative value. -/
def FormatInt (i : Int) : String :=
  match i with
  | Int.ofNat n => Nat.repr n
  | Int.negSucc n => "-" ++ Nat.repr (n + 1)

/-- The fields of `alerting.Rule` read by the notifier. -/
structure Rule where
  Id : Int
  Name : String
  Message : String
  State : AlertStateType

/-- The fields of `alerting.EvalMatch` read by the notifier
(`Value` is the `Float64` of the `null.Float`). -/
structure EvalMatch where
  Metric : String
  Value : Float64

/-- The fields of `alerting.EvalContext` read by the notifier. -/
structure EvalContext where
  Rule : Rule
  EvalMatches : List EvalMatch
  ImagePublicUrl : String

/-- The fields of `m.AlertNotification` read by the factory. -/
structure AlertNotification where
  Id : Int
  IsDefault : Bool
  Name : String
  Type_ : String
  Settings : Json

/-- Modelled from the spec: the shared notifier base (id, default flag, name,
type, raw settings); its declaration is not part of the source. -/
structure NotifierBase where
  Id : Int
  IsDefault : Bool
  Name : String
  Type_ : String
  Settings : Json

/-- Modelled from the spec: `NewNotifierBase`, which stores its arguments in
the shared base; its declaration is not part of the source. -/
def NewNotifierBase (id : Int) (isDefault : Bool) (name notifierType : String) (settings : Json) :
    NotifierBase :=
  { Id := id, IsDefault := isDefault, Name := name, Type_ := notifierType, Settings := settings }

/-- The struct `PagerdutyNotifier`; `log` is the name the logger was created
with. -/
structure PagerdutyNotifier where
  base : NotifierBase
  Key : String
  AutoResolve : Bool
  log : String

/-- The command `m.SendWebhookSync` as filled in by the notifier. -/
structure SendWebhookSync where
  Url : String
  Body : String
  HttpMethod : String
  deriving DecidableEq

/-- The package variable `pagerdutyEventApiUrl`. -/
def pagerdutyEventApiUrl : String :=
  "https://events.pagerduty.com/generic/2010-04-15/create_event.json"

/-! ## Effects -/

/-- One externally visible effect of `Notify` other than the metric counter:
a log line (level and message), a call of `GetRuleUrl`, or a command
dispatched on the bus. -/
inductive Event where
  | logInfo (msg : String) : Event
  | logError (msg : String) : Event
  | getRuleUrl : Event
  | dispatch (cmd : SendWebhookSync) : Event
  deriving DecidableEq

/-- The mutable surroundings of a call: the counter
`metrics.M_Alerting_Notification_Sent_PagerDuty` and the effects issued so
far, oldest first. -/
structure World where
  M_Alerting_Notification_Sent_PagerDuty : Nat
  trace : List Event

/-- Append one effect to the trace. -/
def World.emit (w : World) (e : Event) : World :=
  { w with trace := w.trace ++ [e] }

/-- The collaborators and package-level names the file uses but does not
declare: the package variable `maxFieldCount`, the rule-URL resolver
`EvalContext.GetRuleUrl`, the bus handler reached by `bus.DispatchCtx`
(`none` is a nil error) and `simplejson`'s `MarshalJSON`. -/
structure Env where
  maxFieldCount : Int
  GetRuleUrl : EvalContext → Except GoError String
  DispatchCtx : SendWebhookSync → Option GoError
  MarshalJSON : Json → String

/-! ## The factory -/

/-- The function `NewPagerdutyNotifier`: the two results are the notifier
(`none` is nil) and the error (`none` is nil). -/
def NewPagerdutyNotifier (model : AlertNotification) :
    Option PagerdutyNotifier × Option GoError :=
  let autoResolve := (model.Settings.Get "autoResolve").MustBool true
  let key := (model.Settings.Get "integrationKey").MustString
  if key = "" then
    (none, some (GoError.ValidationError "Could not find integration key property in settings"))
  else
    (some { base := NewNotifierBase model.Id model.IsDefault model.Name model.Type_ model.Settings,
            Key := key,
            AutoResolve := autoResolve,
            log := "alerting.notifier.pagerduty" },
     none)

/-! ## Notify -/

/-- Lines 73-76 of `Notify`: the event type derived from the rule state. -/
def eventType (state : AlertStateType) : String :=
  if state = AlertStateOK then "resolve" else "trigger"

/-- The loop of lines 84-93 of `Notify`, from index `index` on: every match
appends its metric, `" : "` and its value to `message`; the test
`index > maxFieldCount` has an empty body. -/
def renderMatches (maxFieldCount : Int) (index : Nat) (message : String) :
    List EvalMatch → String
  | [] => message
  | evt :: rest =>
    let message := message ++ (evt.Metric ++ " : " ++ FormatFloat evt.Value)
    let message := if (index : Int) > maxFieldCount then message else message
    renderMatches maxFieldCount (index + 1) message rest

/-- Lines 83-93 of `Notify`: the text stored under `description`. -/
def description (maxFieldCount : Int) (evalContext : EvalContext) : String :=
  let message := evalContext.Rule.Name ++ " - " ++ evalContext.Rule.Message ++ " - "
  renderMatches maxFieldCount 0 message evalContext.EvalMatches

/-- The text stored under `incident_key` (line 99). -/
def incidentKey (evalContext : EvalContext) : String :=
  "alertId-" ++ FormatInt evalContext.Rule.Id

/-- Lines 80-99 of `Notify`: the body as it stands before the rule URL is
resolved. -/
def bodyBeforeUrl (maxFieldCount : Int) (this : PagerdutyNotifier) (evalContext : EvalContext) :
    Json :=
  let bodyJSON := Json.New
  let bodyJSON := bodyJSON.Set "service_key" (Json.str this.Key)
  let bodyJSON := bodyJSON.Set "description" (Json.str (description maxFieldCount evalContext))
  let bodyJSON := bodyJSON.Set "client" (Json.str "Grafana")
  let bodyJSON := bodyJSON.Set "event_type" (Json.str (eventType evalContext.Rule.State))
  let bodyJSON := bodyJSON.Set "incident_key" (Json.str (incidentKey evalContext))
  bodyJSON

/-- Lines 106-115 of `Notify`: the rule URL and, when the context has a public
image URL, the image context are added to the body. -/
def bodyAfterUrl (bodyJSON : Json) (evalContext : EvalContext) (ruleUrl : String) : Json :=
  let bodyJSON := bodyJSON.Set "client_url" (Json.str ruleUrl)
  if evalContext.ImagePublicUrl ≠ "" then
    let imageJSON := Json.New
    let imageJSON := imageJSON.Set "type" (Json.str "image")
    let imageJSON := imageJSON.Set "src" (Json.str evalContext.ImagePublicUrl)
    let contexts := [imageJSON]
    bodyJSON.Set "contexts" (Json.arr contexts)
  else
    bodyJSON

/-- The payload of a call that reaches the send: lines 80-115 of `Notify`. -/
def payload (maxFieldCount : Int) (this : PagerdutyNotifier) (evalContext : EvalContext)
    (ruleUrl : String) : Json :=
  bodyAfterUrl (bodyBeforeUrl maxFieldCount this evalContext) evalContext ruleUrl

/-- The method `PagerdutyNotifier.Notify`: the returned error (`none` is nil)
and the world after the call. -/
def Notify (env : Env) (this : PagerdutyNotifier) (evalContext : EvalContext) (w : World) :
    Option GoError × World :=
  let w := { w with M_Alerting_Notification_Sent_PagerDuty :=
                      w.M_Alerting_Notification_Sent_PagerDuty + 1 }
  if evalContext.Rule.State = AlertStateOK ∧ this.AutoResolve = false then
    (none, w.emit (Event.logInfo "Not sending a trigger to Pagerduty"))
  else
    let w := w.emit (Event.logInfo "Notifying Pagerduty")
    let bodyJSON := bodyBeforeUrl env.maxFieldCount this evalContext
    let w := w.emit Event.getRuleUrl
    match env.GetRuleUrl evalContext with
    | Except.error err => (some err, w.emit (Event.logError "Failed get rule link"))
    | Except.ok ruleUrl =>
      let bodyJSON := bodyAfterUrl bodyJSON evalContext ruleUrl
      let body := env.MarshalJSON bodyJSON
      let cmd : SendWebhookSync :=
        { Url := pagerdutyEventApiUrl, Body := body, HttpMethod := "POST" }
      let w := w.emit (Event.dispatch cmd)
      match env.DispatchCtx cmd with
      | some err => (some err, w.emit (Event.logError "Failed to send notification to Pagerduty"))
      | none => (none, w)

/-- The commands dispatched on the bus in a trace, oldest first. -/
def dispatched : List Event → List SendWebhookSync
  | [] => []
  | Event.dispatch cmd :: rest => cmd :: dispatched rest
  | _ :: rest => dispatched rest

/-- The number of `GetRuleUrl` calls in a trace. -/
def resolutions : List Event → Nat
  | [] => 0
  | Event.getRuleUrl :: rest => resolutions rest + 1
  | _ :: rest => resolutions rest

/-- The text `sub` occurs in `s`. -/
def Contains (s sub : String) : Prop :=
  ∃ before after : String, s = before ++ sub ++ after

/-- One formatted match entry: metric, `" : "`, value with two decimals. -/
def matchEntry (evt : EvalMatch) : String :=
  evt.Metric ++ " : " ++ FormatFloat evt.Value

/-- The entries of a match sequence, concatenated in sequence order. -/
def concatEntries : List EvalMatch → String
  | [] => ""
  | evt :: rest => matchEntry evt ++ concatEntries rest

/-- The command `Notify` hands to the bus for a given rule URL. -/
def webhookCmd (env : Env) (this : PagerdutyNotifier) (evalContext : EvalContext)
    (ruleUrl : String) : SendWebhookSync :=
  { Url := pagerdutyEventApiUrl,
    Body := env.MarshalJSON (payload env.maxFieldCount this evalContext ruleUrl),
    HttpMethod := "POST" }

/-! ## Concrete inputs -/

/-- A notifier with auto-resolve on. -/
def sampleNotifier : PagerdutyNotifier :=
  { base := NewNotifierBase 1 false "pd" "pagerduty" (Json.obj [("integrationKey", Json.str "abc")]),
    Key := "abc", AutoResolve := true, log := "alerting.notifier.pagerduty" }

/-- A notifier with auto-resolve off. -/
def quietNotifier : PagerdutyNotifier :=
  { sampleNotifier with AutoResolve := false }

/-- Rule 42 in state `alerting` with the matches cpu = 95 and mem = 88.5. -/
def alertingContext : EvalContext :=
  { Rule := { Id := 42, Name := "High load", Message := "load is high", State := "alerting" },
    EvalMatches := [{ Metric := "cpu", Value := Float64.finite false 95 0 },
                    { Metric := "mem", Value := Float64.finite false 177 (-1) }],
    ImagePublicUrl := "" }

/-- Rule 42 back in state `ok`, with a rendered image. -/
def okContext : EvalContext :=
  { Rule := { Id := 42, Name := "High load", Message := "load is high", State := AlertStateOK },
    EvalMatches := [],
    ImagePublicUrl := "http://img/42.png" }

/-- Collaborators that all succeed. -/
def goodEnv : Env :=
  { maxFieldCount := 4,
    GetRuleUrl := fun _ => Except.ok "http://grafana/dashboard/db/load",
    DispatchCtx := fun _ => none,
    MarshalJSON := fun _ => "body" }

/-- Collaborators whose rule-URL resolver fails. -/
def noUrlEnv : Env :=
  { goodEnv with GetRuleUrl := fun _ => Except.error (GoError.errorString "dashboard not found") }

/-- Collaborators whose webhook transport fails. -/
def noSendEnv : Env :=
  { goodEnv with DispatchCtx := fun _ => some (GoError.errorString "connection refused") }

/-- A world with the counter at 7 and nothing issued yet. -/
def startWorld : World :=
  { M_Alerting_Notification_Sent_PagerDuty := 7, trace := [] }

/-- The number a list of decimal digit characters denotes. -/
def digitsValue (cs : List Char) : Nat :=
  cs.foldl (fun acc c => acc * 10 + (c.toNat - 48)) 0

/-- A notification model whose settings hold an integration key and do not
mention autoResolve. -/
def sampleModel : AlertNotification :=
  { Id := 1, IsDefault := false, Name := "pd", Type_ := "pagerduty",
    Settings := Json.obj [("integrationKey", Json.str "abc")] }

/-! ## Auxiliary lemmas -/

theorem dispatched_append (xs ys : List Event) :
    dispatched (xs ++ ys) = dispatched xs ++ dispatched ys := by
  induction xs with
  | nil => rfl
  | cons e rest ih => cases e <;> simp [dispatched, ih]

theorem resolutions_append (xs ys : List Event) :
    resolutions (xs ++ ys) = resolutions xs + resolutions ys := by
  induction xs with
  | nil => simp [resolutions]
  | cons e rest ih =>
    cases e <;> simp [resolutions, ih]
    omega

theorem renderMatches_eq (maxFieldCount : Int) (ms : List EvalMatch) :
    ∀ (index : Nat) (message : String),
      renderMatches maxFieldCount index message ms = message ++ concatEntries ms := by
  induction ms with
  | nil => intro index message; simp [renderMatches, concatEntries]
  | cons evt rest ih =>
    intro index message
    simp only [renderMatches, concatEntries, ite_self, ih, matchEntry, String.append_assoc]

theorem description_eq (maxFieldCount : Int) (evalContext : EvalContext) :
    description maxFieldCount evalContext =
      evalContext.Rule.Name ++ " - " ++ evalContext.Rule.Message ++ " - " ++
        concatEntries evalContext.EvalMatches := by
  simp [description, renderMatches_eq]

theorem concatEntries_length (ms : List EvalMatch) :
    ms.length ≤ (concatEntries ms).length := by
  induction ms with
  | nil => simp
  | cons evt rest ih =>
    have h : (" : " : String).length = 3 := by decide
    simp only [concatEntries, matchEntry, String.length_append, List.length_cons, h]
    omega

theorem concatEntries_contains (ms : List EvalMatch) (evt : EvalMatch)
    (h : evt ∈ ms) :
    ∃ before after : String, concatEntries ms = before ++ matchEntry evt ++ after := by
  induction ms with
  | nil => cases h
  | cons e rest ih =>
    rcases List.mem_cons.mp h with rfl | h
    · exact ⟨"", concatEntries rest, by simp [concatEntries]⟩
    · obtain ⟨b, a, hba⟩ := ih h
      exact ⟨matchEntry e ++ b, a, by simp [concatEntries, hba, String.append_assoc]⟩

/-- The result and trace of a skipped call. -/
theorem Notify_skip (env : Env) (this : PagerdutyNotifier) (evalContext : EvalContext)
    (w : World) (h : evalContext.Rule.State = AlertStateOK ∧ this.AutoResolve = false) :
    Notify env this evalContext w =
      (none, { M_Alerting_Notification_Sent_PagerDuty :=
                 w.M_Alerting_Notification_Sent_PagerDuty + 1,
               trace := w.trace ++ [Event.logInfo "Not sending a trigger to Pagerduty"] }) := by
  simp [Notify, h, World.emit]

/-- The result and trace of a call whose rule URL does not resolve. -/
theorem Notify_noUrl (env : Env) (this : PagerdutyNotifier) (evalContext : EvalContext)
    (w : World) (err : GoError)
    (h : ¬ (evalContext.Rule.State = AlertStateOK ∧ this.AutoResolve = false))
    (hurl : env.GetRuleUrl evalContext = Except.error err) :
    Notify env this evalContext w =
      (some err, { M_Alerting_Notification_Sent_PagerDuty :=
                     w.M_Alerting_Notification_Sent_PagerDuty + 1,
                   trace := w.trace ++ [Event.logInfo "Notifying Pagerduty", Event.getRuleUrl,
                     Event.logError "Failed get rule link"] }) := by
  simp [Notify, h, hurl, World.emit]

/-- The result and trace of a call that reaches the send. -/
theorem Notify_send (env : Env) (this : PagerdutyNotifier) (evalContext : EvalContext)
    (w : World) (ruleUrl : String)
    (h : ¬ (evalContext.Rule.State = AlertStateOK ∧ this.AutoResolve = false))
    (hurl : env.GetRuleUrl evalContext = Except.ok ruleUrl) :
    Notify env this evalContext w =
      match env.DispatchCtx (webhookCmd env this evalContext ruleUrl) with
      | some err =>
        (some err, { M_Alerting_Notification_Sent_PagerDuty :=
                       w.M_Alerting_Notification_Sent_PagerDuty + 1,
                     trace := w.trace ++ [Event.logInfo "Notifying Pagerduty", Event.getRuleUrl,
                       Event.dispatch (webhookCmd env this evalContext ruleUrl),
                       Event.logError "Failed to send notification to Pagerduty"] })
      | none =>
        (none, { M_Alerting_Notification_Sent_PagerDuty :=
                   w.M_Alerting_Notification_Sent_PagerDuty + 1,
                 trace := w.trace ++ [Event.logInfo "Notifying Pagerduty", Event.getRuleUrl,
                   Event.dispatch (webhookCmd env this evalContext ruleUrl)] }) := by
  simp only [Notify, h, hurl, World.emit, webhookCmd, payload, if_false]
  cases env.DispatchCtx _ <;> simp

/-! ## Claims -/

/-- C1: in every payload that Notify builds, the value under event_type is
"resolve" exactly when the rule state is OK and "trigger" exactly when the rule
state is anything else. -/
theorem event_type_resolve_iff_ok (maxFieldCount : Int) (this : PagerdutyNotifier)
    (evalContext : EvalContext) (ruleUrl : String) :
    ∃ v : String,
      (payload maxFieldCount this evalContext ruleUrl).field "event_type" = some (Json.str v) ∧
      (v = "resolve" ↔ evalContext.Rule.State = AlertStateOK) ∧
      (v = "trigger" ↔ evalContext.Rule.State ≠ AlertStateOK) := by
  refine ⟨eventType evalContext.Rule.State, ?_, ?_, ?_⟩
  · by_cases himg : evalContext.ImagePublicUrl = "" <;>
      simp [payload, bodyAfterUrl, bodyBeforeUrl, Json.Set, Json.New, setKey, Json.field,
        lookupKey, himg]
  · by_cases h : evalContext.Rule.State = AlertStateOK <;> simp [eventType, h]
  · by_cases h : evalContext.Rule.State = AlertStateOK <;> simp [eventType, h]

/-- C2: Notify returns nil with no rule-URL resolution and no webhook dispatch
exactly when the state is OK and AutoResolve is false; in every other case it
resolves the rule URL once and, when the URL resolves, dispatches the webhook
built from the payload. -/
theorem silent_iff_ok_without_auto_resolve (env : Env) (this : PagerdutyNotifier)
    (evalContext : EvalContext) (w : World) :
    (((Notify env this evalContext w).1 = none ∧
        resolutions (Notify env this evalContext w).2.trace = resolutions w.trace ∧
        dispatched (Notify env this evalContext w).2.trace = dispatched w.trace) ↔
      (evalContext.Rule.State = AlertStateOK ∧ this.AutoResolve = false)) ∧
    ((evalContext.Rule.State = AlertStateOK ∧ this.AutoResolve = false) ∨
      (resolutions (Notify env this evalContext w).2.trace = resolutions w.trace + 1 ∧
        match env.GetRuleUrl evalContext with
        | Except.ok ruleUrl =>
          dispatched (Notify env this evalContext w).2.trace =
            dispatched w.trace ++ [webhookCmd env this evalContext ruleUrl]
        | Except.error _ =>
          dispatched (Notify env this evalContext w).2.trace = dispatched w.trace)) := by
  by_cases h : evalContext.Rule.State = AlertStateOK ∧ this.AutoResolve = false
  · rw [Notify_skip env this evalContext w h]
    simp [h, resolutions_append, dispatched_append, resolutions, dispatched]
  · cases hurl : env.GetRuleUrl evalContext with
    | error err =>
      rw [Notify_noUrl env this evalContext w err h hurl]
      simp [h, resolutions_append, dispatched_append, resolutions, dispatched]
    | ok ruleUrl =>
      rw [Notify_send env this evalContext w ruleUrl h hurl]
      cases env.DispatchCtx (webhookCmd env this evalContext ruleUrl) <;>
        simp [h, resolutions_append, dispatched_append, resolutions, dispatched]

/-- Seven matches cpu = 95, for rule 42 in state alerting. -/
def sevenMatchesContext : EvalContext :=
  { alertingContext with
    EvalMatches := List.replicate 7 { Metric := "cpu", Value := Float64.finite false 95 0 } }

/-- C3 (what the code does): no bound K caps the rendered matches. For every
value of maxFieldCount and every K there is a match sequence of K + 1 matches
whose description carries all K + 1 entries after the rule name and message and
is longer than K characters; with seven matches all seven entries are rendered,
whatever maxFieldCount is. -/
theorem description_renders_every_match (maxFieldCount : Int) :
    (∀ K : Nat, ∃ evalContext : EvalContext,
      evalContext.EvalMatches.length = K + 1 ∧
      description maxFieldCount evalContext =
        evalContext.Rule.Name ++ " - " ++ evalContext.Rule.Message ++ " - " ++
          concatEntries evalContext.EvalMatches ∧
      K < (concatEntries evalContext.EvalMatches).length ∧
      K < (description maxFieldCount evalContext).length) ∧
    description maxFieldCount sevenMatchesContext =
      "High load - load is high - cpu : 95.00cpu : 95.00cpu : 95.00cpu : 95.00" ++
        "cpu : 95.00cpu : 95.00cpu : 95.00" := by
  refine ⟨fun K => ?_, by rw [description_eq]; decide⟩
  have h := concatEntries_length
    (List.replicate (K + 1) ({ Metric := "cpu", Value := Float64.nan } : EvalMatch))
  simp only [List.length_replicate] at h
  refine ⟨{ alertingContext with
            EvalMatches := List.replicate (K + 1) { Metric := "cpu", Value := Float64.nan } },
    by simp, description_eq _ _, h, ?_⟩
  rw [description_eq]
  simp only [String.length_append]
  omega

/-- C4: the description is the rule name, " - ", the rule message, " - " and
then the entries (metric, " : ", value with two decimals) of all matches in
sequence order; every match entry occurs in it; with no matches it is the rule
name and message part alone; for the matches cpu = 95 and mem = 88.5 it carries
"cpu : 95.00" and "mem : 88.50". -/
theorem description_renders_all_matches (maxFieldCount : Int) (evalContext : EvalContext) :
    description maxFieldCount evalContext =
        evalContext.Rule.Name ++ " - " ++ evalContext.Rule.Message ++ " - " ++
          concatEntries evalContext.EvalMatches ∧
    (∀ evt ∈ evalContext.EvalMatches,
        Contains (description maxFieldCount evalContext)
          (evt.Metric ++ " : " ++ FormatFloat evt.Value)) ∧
    description maxFieldCount { evalContext with EvalMatches := [] } =
        evalContext.Rule.Name ++ " - " ++ evalContext.Rule.Message ++ " - " ∧
    description maxFieldCount alertingContext =
        "High load - load is high - cpu : 95.00mem : 88.50" ∧
    Contains (description maxFieldCount alertingContext) "cpu : 95.00" ∧
    Contains (description maxFieldCount alertingContext) "mem : 88.50" := by
  have hex : description maxFieldCount alertingContext =
      "High load - load is high - cpu : 95.00mem : 88.50" := by
    rw [description_eq]; decide
  refine ⟨description_eq _ _, ?_, ?_, hex, ?_, ?_⟩
  · intro evt hevt
    obtain ⟨b, a, hba⟩ := concatEntries_contains _ evt hevt
    refine ⟨evalContext.Rule.Name ++ " - " ++ evalContext.Rule.Message ++ " - " ++ b, a, ?_⟩
    rw [description_eq, hba]
    simp [matchEntry, String.append_assoc]
  · rw [description_eq]; simp [concatEntries]
  · exact ⟨"High load - load is high - ", "mem : 88.50", by rw [hex]; decide⟩
  · exact ⟨"High load - load is high - cpu : 95.00", "", by rw [hex]; decide⟩

/-- C5: the incident_key of a payload is "alertId-" followed by the decimal
rule id; two payloads built for the same rule id carry the same incident_key,
whatever the notifier, state, matches, image URL, rule URL or maxFieldCount;
for rule id 42 it is "alertId-42". -/
theorem incident_key_depends_on_rule_id_only (mfcA mfcB : Int) (nA nB : PagerdutyNotifier)
    (cA cB : EvalContext) (urlA urlB : String) (h : cA.Rule.Id = cB.Rule.Id) :
    (payload mfcA nA cA urlA).field "incident_key" =
        some (Json.str ("alertId-" ++ FormatInt cA.Rule.Id)) ∧
    (payload mfcA nA cA urlA).field "incident_key" =
        (payload mfcB nB cB urlB).field "incident_key" ∧
    "alertId-" ++ FormatInt 42 = "alertId-42" := by
  have key : ∀ (mfc : Int) (n : PagerdutyNotifier) (c : EvalContext) (url : String),
      (payload mfc n c url).field "incident_key" =
        some (Json.str ("alertId-" ++ FormatInt c.Rule.Id)) := by
    intro mfc n c url
    by_cases himg : c.ImagePublicUrl = "" <;>
      simp [payload, bodyAfterUrl, bodyBeforeUrl, Json.Set, Json.New, setKey, Json.field,
        lookupKey, himg, incidentKey]
  refine ⟨key _ _ _ _, ?_, by decide⟩
  rw [key, key, h]

/-- The trigger payload and the resolve payload of rule 42 carry the same
incident_key. -/
theorem incident_key_depends_on_rule_id_only_witness :
    alertingContext.Rule.Id = okContext.Rule.Id ∧
    ((payload 4 sampleNotifier alertingContext "http://a").field "incident_key" =
        some (Json.str ("alertId-" ++ FormatInt alertingContext.Rule.Id)) ∧
      (payload 4 sampleNotifier alertingContext "http://a").field "incident_key" =
        (payload 0 quietNotifier okContext "http://b").field "incident_key" ∧
      "alertId-" ++ FormatInt 42 = "alertId-42") :=
  ⟨rfl, incident_key_depends_on_rule_id_only 4 0 sampleNotifier quietNotifier alertingContext
    okContext "http://a" "http://b" rfl⟩

/-- The string read by the factory under a key, in terms of the raw lookup. -/
theorem mustString_get (j : Json) (key : String) :
    (j.Get key).MustString =
      match j.field key with
      | some (Json.str s) => s
      | _ => "" := by
  cases j with
  | obj kvs =>
    simp only [Json.Get, Json.field]
    cases hk : lookupKey key kvs with
    | none => rfl
    | some v => cases v <;> rfl
  | _ => rfl

/-- C6: NewPagerdutyNotifier returns an error exactly when the settings hold no
non-empty string under integrationKey (absent, not a string, or empty); a
failing call returns no notifier and a ValidationError; a successful call
returns a nil error and a notifier whose Key is the integrationKey setting. -/
theorem new_notifier_fails_iff_no_integration_key (model : AlertNotification) :
    ((NewPagerdutyNotifier model).2 ≠ none ↔
      ¬ ∃ s : String, s ≠ "" ∧ model.Settings.field "integrationKey" = some (Json.str s)) ∧
    (((NewPagerdutyNotifier model).2 ≠ none ∧
        NewPagerdutyNotifier model =
          (none, some (GoError.ValidationError
            "Could not find integration key property in settings"))) ∨
      ((NewPagerdutyNotifier model).2 = none ∧
        ∃ n : PagerdutyNotifier,
          (NewPagerdutyNotifier model).1 = some n ∧
          model.Settings.field "integrationKey" = some (Json.str n.Key))) := by
  have hget := mustString_get model.Settings "integrationKey"
  by_cases hkey : (model.Settings.Get "integrationKey").MustString = ""
  · have hnone : ¬ ∃ s : String, s ≠ "" ∧
        model.Settings.field "integrationKey" = some (Json.str s) := by
      rintro ⟨s, hs, hf⟩
      rw [hf] at hget
      exact hs (hget.symm.trans hkey)
    simp [NewPagerdutyNotifier, hkey, hnone]
  · have hsome : model.Settings.field "integrationKey" =
        some (Json.str (model.Settings.Get "integrationKey").MustString) := by
      cases hf : model.Settings.field "integrationKey" with
      | none => rw [hf] at hget; exact absurd hget hkey
      | some v =>
        cases v with
        | str s => rw [hf] at hget; simp [hget]
        | _ => rw [hf] at hget; exact absurd hget hkey
    have hex : ∃ s : String, s ≠ "" ∧
        model.Settings.field "integrationKey" = some (Json.str s) := ⟨_, hkey, hsome⟩
    simp [NewPagerdutyNotifier, hkey, hex, hsome]

/-- C7 (as the code behaves): every call of Notify increments the PagerDuty
notification counter by exactly 1, whether the notification is skipped, the
rule URL fails to resolve, the send fails or the send succeeds. -/
theorem counter_incremented_on_every_call (env : Env) (this : PagerdutyNotifier)
    (evalContext : EvalContext) (w : World) :
    (Notify env this evalContext w).2.M_Alerting_Notification_Sent_PagerDuty =
      w.M_Alerting_Notification_Sent_PagerDuty + 1 := by
  by_cases h : evalContext.Rule.State = AlertStateOK ∧ this.AutoResolve = false
  · rw [Notify_skip env this evalContext w h]
  · cases hurl : env.GetRuleUrl evalContext with
    | error err => rw [Notify_noUrl env this evalContext w err h hurl]
    | ok ruleUrl =>
      rw [Notify_send env this evalContext w ruleUrl h hurl]
      cases env.DispatchCtx (webhookCmd env this evalContext ruleUrl) <;> rfl

/-- C7 fails as stated: a skipped call (state OK, AutoResolve off), a call
whose rule URL does not resolve and a call whose send fails each move the
counter from 7 to 8. -/
theorem counter_changes_without_successful_send :
    (okContext.Rule.State = AlertStateOK ∧ quietNotifier.AutoResolve = false) ∧
    (Notify goodEnv quietNotifier okContext startWorld).1 = none ∧
    dispatched (Notify goodEnv quietNotifier okContext startWorld).2.trace = [] ∧
    (Notify goodEnv quietNotifier okContext
        startWorld).2.M_Alerting_Notification_Sent_PagerDuty ≠
      startWorld.M_Alerting_Notification_Sent_PagerDuty ∧
    (Notify noUrlEnv sampleNotifier alertingContext
        startWorld).2.M_Alerting_Notification_Sent_PagerDuty ≠
      startWorld.M_Alerting_Notification_Sent_PagerDuty ∧
    (Notify noSendEnv sampleNotifier alertingContext
        startWorld).2.M_Alerting_Notification_Sent_PagerDuty ≠
      startWorld.M_Alerting_Notification_Sent_PagerDuty := by
  refine ⟨⟨rfl, rfl⟩, ?_, ?_, ?_, ?_, ?_⟩ <;> decide

/-- C8 (as the code behaves): when a call that is not skipped gets the error
err from GetRuleUrl, Notify returns err itself and dispatches no webhook. -/
theorem url_failure_returns_resolver_error (env : Env) (this : PagerdutyNotifier)
    (evalContext : EvalContext) (w : World) (err : GoError)
    (h : ¬ (evalContext.Rule.State = AlertStateOK ∧ this.AutoResolve = false))
    (hurl : env.GetRuleUrl evalContext = Except.error err) :
    (Notify env this evalContext w).1 = some err ∧
    dispatched (Notify env this evalContext w).2.trace = dispatched w.trace := by
  rw [Notify_noUrl env this evalContext w err h hurl]
  simp [dispatched_append, dispatched]

/-- With a resolver that fails with "dashboard not found", Notify returns that
error and the trace holds no dispatch. -/
theorem url_failure_returns_resolver_error_witness :
    (¬ (alertingContext.Rule.State = AlertStateOK ∧ sampleNotifier.AutoResolve = false)) ∧
    noUrlEnv.GetRuleUrl alertingContext =
      Except.error (GoError.errorString "dashboard not found") ∧
    ((Notify noUrlEnv sampleNotifier alertingContext startWorld).1 =
        some (GoError.errorString "dashboard not found") ∧
      dispatched (Notify noUrlEnv sampleNotifier alertingContext startWorld).2.trace =
        dispatched startWorld.trace) :=
  ⟨by decide, rfl,
    url_failure_returns_resolver_error noUrlEnv sampleNotifier alertingContext startWorld
      (GoError.errorString "dashboard not found") (by decide) rfl⟩

/-- C8 fails as stated: the resolver fails with the plain error "dashboard not
found" and Notify returns that error, which is not a LinkResolutionError. -/
theorem url_failure_is_not_link_resolution_error :
    noUrlEnv.GetRuleUrl alertingContext =
      Except.error (GoError.errorString "dashboard not found") ∧
    (Notify noUrlEnv sampleNotifier alertingContext startWorld).1 =
      some (GoError.errorString "dashboard not found") ∧
    (Notify noUrlEnv sampleNotifier alertingContext startWorld).1 ≠
      some GoError.LinkResolutionError := by
  refine ⟨rfl, ?_, ?_⟩ <;> decide

/-- C9 (as the code behaves): when the send of a call fails with the transport
error c, Notify returns c itself, and the call has dispatched exactly one
webhook command. -/
theorem send_failure_returns_transport_error (env : Env) (this : PagerdutyNotifier)
    (evalContext : EvalContext) (w : World) (ruleUrl : String) (c : GoError)
    (h : ¬ (evalContext.Rule.State = AlertStateOK ∧ this.AutoResolve = false))
    (hurl : env.GetRuleUrl evalContext = Except.ok ruleUrl)
    (hsend : env.DispatchCtx (webhookCmd env this evalContext ruleUrl) = some c) :
    (Notify env this evalContext w).1 = some c ∧
    dispatched (Notify env this evalContext w).2.trace =
      dispatched w.trace ++ [webhookCmd env this evalContext ruleUrl] := by
  rw [Notify_send env this evalContext w ruleUrl h hurl, hsend]
  simp [dispatched_append, dispatched]

/-- With a transport that fails with "connection refused", Notify returns that
error after a single dispatch. -/
theorem send_failure_returns_transport_error_witness :
    (¬ (alertingContext.Rule.State = AlertStateOK ∧ sampleNotifier.AutoResolve = false)) ∧
    noSendEnv.GetRuleUrl alertingContext = Except.ok "http://grafana/dashboard/db/load" ∧
    noSendEnv.DispatchCtx
        (webhookCmd noSendEnv sampleNotifier alertingContext "http://grafana/dashboard/db/load") =
      some (GoError.errorString "connection refused") ∧
    ((Notify noSendEnv sampleNotifier alertingContext startWorld).1 =
        some (GoError.errorString "connection refused") ∧
      dispatched (Notify noSendEnv sampleNotifier alertingContext startWorld).2.trace =
        dispatched startWorld.trace ++
          [webhookCmd noSendEnv sampleNotifier alertingContext
            "http://grafana/dashboard/db/load"]) :=
  ⟨by decide, rfl, rfl,
    send_failure_returns_transport_error noSendEnv sampleNotifier alertingContext startWorld
      "http://grafana/dashboard/db/load" (GoError.errorString "connection refused")
      (by decide) rfl rfl⟩

/-- C9 fails as stated: the transport fails with the plain error "connection
refused" and Notify returns that error; it is no DeliveryError, whatever the
channel and cause. -/
theorem send_failure_is_not_delivery_error :
    noSendEnv.DispatchCtx
        (webhookCmd noSendEnv sampleNotifier alertingContext "http://grafana/dashboard/db/load") =
      some (GoError.errorString "connection refused") ∧
    (Notify noSendEnv sampleNotifier alertingContext startWorld).1 =
      some (GoError.errorString "connection refused") ∧
    ¬ ∃ (channel : String) (cause : GoError),
      (Notify noSendEnv sampleNotifier alertingContext startWorld).1 =
        some (GoError.DeliveryError channel cause) := by
  have hres : (Notify noSendEnv sampleNotifier alertingContext startWorld).1 =
      some (GoError.errorString "connection refused") := by decide
  refine ⟨rfl, hres, ?_⟩
  rintro ⟨channel, cause, hc⟩
  rw [hres] at hc
  cases hc

/-- C10: the payload of a call that reaches the send is a map with exactly the
keys service_key (the notifier Key), description, client ("Grafana"),
event_type, incident_key and client_url (the resolved rule URL) when the image
URL of the context is empty, and with the additional key contexts, holding the
one-element list of the map with type "image" and src the image URL, when it is
not empty; every command Notify dispatches has the marshalled payload as body. -/
theorem payload_keys (env : Env) (this : PagerdutyNotifier) (evalContext : EvalContext)
    (w : World) (ruleUrl : String) :
    ((evalContext.ImagePublicUrl = "" ∧
        payload env.maxFieldCount this evalContext ruleUrl =
          Json.obj [("service_key", Json.str this.Key),
            ("description", Json.str (description env.maxFieldCount evalContext)),
            ("client", Json.str "Grafana"),
            ("event_type", Json.str (eventType evalContext.Rule.State)),
            ("incident_key", Json.str ("alertId-" ++ FormatInt evalContext.Rule.Id)),
            ("client_url", Json.str ruleUrl)] ∧
        (payload env.maxFieldCount this evalContext ruleUrl).keys =
          ["service_key", "description", "client", "event_type", "incident_key",
            "client_url"]) ∨
      (evalContext.ImagePublicUrl ≠ "" ∧
        payload env.maxFieldCount this evalContext ruleUrl =
          Json.obj [("service_key", Json.str this.Key),
            ("description", Json.str (description env.maxFieldCount evalContext)),
            ("client", Json.str "Grafana"),
            ("event_type", Json.str (eventType evalContext.Rule.State)),
            ("incident_key", Json.str ("alertId-" ++ FormatInt evalContext.Rule.Id)),
            ("client_url", Json.str ruleUrl),
            ("contexts", Json.arr [Json.obj [("type", Json.str "image"),
              ("src", Json.str evalContext.ImagePublicUrl)]])] ∧
        (payload env.maxFieldCount this evalContext ruleUrl).keys =
          ["service_key", "description", "client", "event_type", "incident_key",
            "client_url", "contexts"])) ∧
    (dispatched (Notify env this evalContext w).2.trace = dispatched w.trace ∨
      ∃ url : String, env.GetRuleUrl evalContext = Except.ok url ∧
        dispatched (Notify env this evalContext w).2.trace =
          dispatched w.trace ++
            [{ Url := pagerdutyEventApiUrl,
               Body := env.MarshalJSON (payload env.maxFieldCount this evalContext url),
               HttpMethod := "POST" }]) := by
  constructor
  · by_cases himg : evalContext.ImagePublicUrl = ""
    · left
      simp [payload, bodyAfterUrl, bodyBeforeUrl, Json.Set, Json.New, setKey, Json.keys,
        himg, incidentKey]
    · right
      simp [payload, bodyAfterUrl, bodyBeforeUrl, Json.Set, Json.New, setKey, Json.keys,
        himg, incidentKey]
  · by_cases h : evalContext.Rule.State = AlertStateOK ∧ this.AutoResolve = false
    · left
      rw [Notify_skip env this evalContext w h]
      simp [dispatched_append, dispatched]
    · cases hurl : env.GetRuleUrl evalContext with
      | error err =>
        left
        rw [Notify_noUrl env this evalContext w err h hurl]
        simp [dispatched_append, dispatched]
      | ok url =>
        right
        refine ⟨url, rfl, ?_⟩
        rw [Notify_send env this evalContext w url h hurl]
        cases env.DispatchCtx (webhookCmd env this evalContext url) <;>
          simp [dispatched_append, dispatched, webhookCmd]

/-! ## Decimal rendering -/

theorem digitsValue_snoc (l : List Char) (d : Char) :
    digitsValue (l ++ [d]) = digitsValue l * 10 + (d.toNat - 48) := by
  simp [digitsValue, List.foldl_append]

theorem digitChar_value (k : Nat) (h : k < 10) :
    (Nat.digitChar k).toNat - 48 = k ∧ Nat.digitChar k ≠ '-' := by
  interval_cases k <;> decide

/-- With enough fuel, the digit loop puts in front of its accumulator a list
of characters that denotes the number and holds no minus sign. -/
theorem toDigitsCore_value (fuel : Nat) :
    ∀ (n : Nat) (ds : List Char), n < fuel →
      ∃ l : List Char, Nat.toDigitsCore 10 fuel n ds = l ++ ds ∧ digitsValue l = n ∧
        ∀ c ∈ l, c ≠ '-' := by
  induction fuel with
  | zero => intro n ds h; omega
  | succ fuel ih =>
    intro n ds h
    have hd := digitChar_value (n % 10) (Nat.mod_lt n (by decide))
    by_cases hq : n / 10 = 0
    · refine ⟨[Nat.digitChar (n % 10)], by simp [Nat.toDigitsCore, hq], ?_, ?_⟩
      · have hn : n % 10 = n := by omega
        simpa [digitsValue, hn] using hd.1
      · intro c hc
        rw [List.mem_singleton] at hc
        rw [hc]; exact hd.2
    · obtain ⟨l, hl, hv, hm⟩ := ih (n / 10) (Nat.digitChar (n % 10) :: ds) (by omega)
      refine ⟨l ++ [Nat.digitChar (n % 10)], by simp [Nat.toDigitsCore, hq, hl], ?_, ?_⟩
      · rw [digitsValue_snoc, hv, hd.1]; omega
      · intro c hc
        rcases List.mem_append.mp hc with hc | hc
        · exact hm c hc
        · rw [List.mem_singleton] at hc
          rw [hc]; exact hd.2

theorem repr_value (n : Nat) :
    digitsValue (Nat.repr n).data = n ∧ ∀ c ∈ (Nat.repr n).data, c ≠ '-' := by
  obtain ⟨l, hl, hv, hm⟩ := toDigitsCore_value (n + 1) n [] (by omega)
  have h : (Nat.repr n).data = l := by
    simp [Nat.repr, Nat.toDigits, hl, List.asString]
  rw [h]; exact ⟨hv, hm⟩

theorem repr_injective (a b : Nat) (h : Nat.repr a = Nat.repr b) : a = b := by
  rw [← (repr_value a).1, ← (repr_value b).1, h]

theorem minus_repr_ne (a b : Nat) : "-" ++ Nat.repr a ≠ Nat.repr b := by
  intro h
  have hmem : '-' ∈ (Nat.repr b).data := by
    rw [← h]; simp
  exact (repr_value b).2 _ hmem rfl

theorem append_left_cancel (p s t : String) (h : p ++ s = p ++ t) : s = t := by
  have hd := congrArg String.data h
  simp only [String.data_append] at hd
  exact String.ext (List.append_cancel_left hd)

theorem FormatInt_injective (a b : Int) (h : FormatInt a = FormatInt b) : a = b := by
  cases a with
  | ofNat m =>
    cases b with
    | ofNat n => simp only [FormatInt] at h; rw [repr_injective m n h]
    | negSucc n => simp only [FormatInt] at h; exact absurd h.symm (minus_repr_ne _ _)
  | negSucc m =>
    cases b with
    | ofNat n => simp only [FormatInt] at h; exact absurd h (minus_repr_ne _ _)
    | negSucc n =>
      simp only [FormatInt] at h
      have := repr_injective _ _ (append_left_cancel _ _ _ h)
      have hmn : m = n := by omega
      rw [hmn]

/-! ## Fields of the payload -/

theorem payload_incident_key (maxFieldCount : Int) (this : PagerdutyNotifier)
    (evalContext : EvalContext) (ruleUrl : String) :
    (payload maxFieldCount this evalContext ruleUrl).field "incident_key" =
      some (Json.str ("alertId-" ++ FormatInt evalContext.Rule.Id)) := by
  by_cases himg : evalContext.ImagePublicUrl = "" <;>
    simp [payload, bodyAfterUrl, bodyBeforeUrl, Json.Set, Json.New, setKey, Json.field,
      lookupKey, himg, incidentKey]

theorem payload_event_type (maxFieldCount : Int) (this : PagerdutyNotifier)
    (evalContext : EvalContext) (ruleUrl : String) :
    (payload maxFieldCount this evalContext ruleUrl).field "event_type" =
      some (Json.str (eventType evalContext.Rule.State)) := by
  by_cases himg : evalContext.ImagePublicUrl = "" <;>
    simp [payload, bodyAfterUrl, bodyBeforeUrl, Json.Set, Json.New, setKey, Json.field,
      lookupKey, himg]

/-- The boolean read by the factory under a key, in terms of the raw lookup. -/
theorem mustBool_get (j : Json) (key : String) (dflt : Bool) :
    (j.Get key).MustBool dflt =
      match j.field key with
      | some (Json.bool b) => b
      | _ => dflt := by
  cases j with
  | obj kvs =>
    simp only [Json.Get, Json.field]
    cases hk : lookupKey key kvs with
    | none => rfl
    | some v => cases v <;> rfl
  | _ => rfl

/-! ## Claims, continued -/

/-- C11: a call of Notify that is not skipped and whose rule URL resolves adds
exactly one webhook command to the dispatched commands, with method "POST",
the fixed PagerDuty events URL and the marshalled payload as body; a skipped
call and a call whose rule URL does not resolve add none. The command is in
the trace of the world the call returns, after the rule-URL resolution. -/
theorem one_post_per_resolved_call (env : Env) (this : PagerdutyNotifier)
    (evalContext : EvalContext) (w : World) :
    dispatched (Notify env this evalContext w).2.trace =
      dispatched w.trace ++
        (if evalContext.Rule.State = AlertStateOK ∧ this.AutoResolve = false then []
         else
          match env.GetRuleUrl evalContext with
          | Except.ok ruleUrl =>
            [{ Url := pagerdutyEventApiUrl,
               Body := env.MarshalJSON (payload env.maxFieldCount this evalContext ruleUrl),
               HttpMethod := "POST" }]
          | Except.error _ => []) ∧
    pagerdutyEventApiUrl =
      "https://events.pagerduty.com/generic/2010-04-15/create_event.json" ∧
    (dispatched (Notify env this evalContext w).2.trace = dispatched w.trace ∨
      ∃ (ruleUrl : String) (logs : List Event),
        dispatched logs = [] ∧
        (Notify env this evalContext w).2.trace =
          w.trace ++ [Event.logInfo "Notifying Pagerduty", Event.getRuleUrl,
            Event.dispatch (webhookCmd env this evalContext ruleUrl)] ++ logs) := by
  refine ⟨?_, rfl, ?_⟩
  · by_cases h : evalContext.Rule.State = AlertStateOK ∧ this.AutoResolve = false
    · rw [Notify_skip env this evalContext w h]
      simp [h, dispatched_append, dispatched]
    · cases hurl : env.GetRuleUrl evalContext with
      | error err =>
        rw [Notify_noUrl env this evalContext w err h hurl]
        simp [h, dispatched_append, dispatched]
      | ok ruleUrl =>
        rw [Notify_send env this evalContext w ruleUrl h hurl]
        cases env.DispatchCtx (webhookCmd env this evalContext ruleUrl) <;>
          simp [h, dispatched_append, dispatched, webhookCmd]
  · by_cases h : evalContext.Rule.State = AlertStateOK ∧ this.AutoResolve = false
    · left
      rw [Notify_skip env this evalContext w h]
      simp [dispatched_append, dispatched]
    · cases hurl : env.GetRuleUrl evalContext with
      | error err =>
        left
        rw [Notify_noUrl env this evalContext w err h hurl]
        simp [dispatched_append, dispatched]
      | ok ruleUrl =>
        right
        rw [Notify_send env this evalContext w ruleUrl h hurl]
        cases env.DispatchCtx (webhookCmd env this evalContext ruleUrl) with
        | none => exact ⟨ruleUrl, [], rfl, by simp⟩
        | some err =>
          exact ⟨ruleUrl, [Event.logError "Failed to send notification to Pagerduty"], rfl,
            by simp⟩

/-- C12: the incident key is injective in the rule id. For all integers a and
b (the 64-bit signed ids among them, negative ones included) "alertId-"
followed by the decimal rendering of a equals "alertId-" followed by that of b
exactly when a = b; so two payloads carry the same incident_key exactly when
their rule ids are equal. -/
theorem incident_key_injective (mfcA mfcB : Int) (nA nB : PagerdutyNotifier)
    (cA cB : EvalContext) (urlA urlB : String) (a b : Int) :
    ("alertId-" ++ FormatInt a = "alertId-" ++ FormatInt b ↔ a = b) ∧
    (incidentKey cA = incidentKey cB ↔ cA.Rule.Id = cB.Rule.Id) ∧
    ((payload mfcA nA cA urlA).field "incident_key" =
        (payload mfcB nB cB urlB).field "incident_key" ↔ cA.Rule.Id = cB.Rule.Id) := by
  have key : ∀ x y : Int, "alertId-" ++ FormatInt x = "alertId-" ++ FormatInt y ↔ x = y := by
    intro x y
    constructor
    · intro h
      exact FormatInt_injective x y (append_left_cancel _ _ _ h)
    · intro h
      rw [h]
  refine ⟨key a b, key _ _, ?_⟩
  rw [payload_incident_key, payload_incident_key]
  constructor
  · intro h
    have hs : "alertId-" ++ FormatInt cA.Rule.Id = "alertId-" ++ FormatInt cB.Rule.Id := by
      simpa using h
    exact (key _ _).mp hs
  · intro h
    rw [h]

/-- C13: for settings that hold the non-empty string k under integrationKey,
NewPagerdutyNotifier builds a notifier whose AutoResolve is the boolean stored
under autoResolve, and true when autoResolve is absent or not a boolean; a
notifier built from settings without autoResolve does not skip a rule in state
OK: Notify dispatches the webhook, and its payload has event_type "resolve". -/
theorem auto_resolve_defaults_to_true (model : AlertNotification) (k : String)
    (hk : k ≠ "") (hkey : model.Settings.field "integrationKey" = some (Json.str k)) :
    ∃ n : PagerdutyNotifier,
      NewPagerdutyNotifier model = (some n, none) ∧
      n.Key = k ∧
      n.AutoResolve =
        (match model.Settings.field "autoResolve" with
         | some (Json.bool b) => b
         | _ => true) ∧
      (model.Settings.field "autoResolve" = none →
        n.AutoResolve = true ∧
        ∀ (env : Env) (evalContext : EvalContext) (w : World) (ruleUrl : String),
          evalContext.Rule.State = AlertStateOK →
          env.GetRuleUrl evalContext = Except.ok ruleUrl →
            dispatched (Notify env n evalContext w).2.trace =
              dispatched w.trace ++ [webhookCmd env n evalContext ruleUrl] ∧
            (payload env.maxFieldCount n evalContext ruleUrl).field "event_type" =
              some (Json.str "resolve")) := by
  have hstr : (model.Settings.Get "integrationKey").MustString = k := by
    rw [mustString_get, hkey]
  have hbool := mustBool_get model.Settings "autoResolve" true
  refine ⟨{ base := NewNotifierBase model.Id model.IsDefault model.Name model.Type_
              model.Settings,
            Key := k,
            AutoResolve := (model.Settings.Get "autoResolve").MustBool true,
            log := "alerting.notifier.pagerduty" }, ?_, rfl, hbool, ?_⟩
  · simp [NewPagerdutyNotifier, hstr, hk]
  · intro habsent
    have htrue : (model.Settings.Get "autoResolve").MustBool true = true := by
      rw [hbool, habsent]
    refine ⟨htrue, ?_⟩
    intro env evalContext w ruleUrl hstate hurl
    constructor
    · rw [Notify_send env _ evalContext w ruleUrl (by simp [htrue]) hurl]
      cases env.DispatchCtx _ <;> simp [dispatched_append, dispatched]
    · rw [payload_event_type]
      simp [eventType, hstate]

/-- The notifier built from settings that hold only an integration key has
auto-resolve on and resolves a rule in state OK. -/
theorem auto_resolve_defaults_to_true_witness :
    "abc" ≠ "" ∧
    sampleModel.Settings.field "integrationKey" = some (Json.str "abc") ∧
    ∃ n : PagerdutyNotifier,
      NewPagerdutyNotifier sampleModel = (some n, none) ∧
      n.Key = "abc" ∧
      n.AutoResolve =
        (match sampleModel.Settings.field "autoResolve" with
         | some (Json.bool b) => b
         | _ => true) ∧
      (sampleModel.Settings.field "autoResolve" = none →
        n.AutoResolve = true ∧
        ∀ (env : Env) (evalContext : EvalContext) (w : World) (ruleUrl : String),
          evalContext.Rule.State = AlertStateOK →
          env.GetRuleUrl evalContext = Except.ok ruleUrl →
            dispatched (Notify env n evalContext w).2.trace =
              dispatched w.trace ++ [webhookCmd env n evalContext ruleUrl] ∧
            (payload env.maxFieldCount n evalContext ruleUrl).field "event_type" =
              some (Json.str "resolve")) :=
  ⟨by decide, rfl,
    auto_resolve_defaults_to_true sampleModel "abc" (by decide) rfl⟩

/-- C14: the error Notify returns is nil on a skipped call, the error of
GetRuleUrl when the rule URL does not resolve, and otherwise whatever the
dispatch of the webhook command returns (nil on success); hence it is non-nil
exactly when the call is not skipped and the resolution or the send fails. -/
theorem returned_error_is_collaborator_error (env : Env) (this : PagerdutyNotifier)
    (evalContext : EvalContext) (w : World) :
    (Notify env this evalContext w).1 =
      (if evalContext.Rule.State = AlertStateOK ∧ this.AutoResolve = false then none
       else
        match env.GetRuleUrl evalContext with
        | Except.error err => some err
        | Except.ok ruleUrl => env.DispatchCtx (webhookCmd env this evalContext ruleUrl)) ∧
    ((Notify env this evalContext w).1 ≠ none ↔
      ¬ (evalContext.Rule.State = AlertStateOK ∧ this.AutoResolve = false) ∧
        ((∃ err : GoError, env.GetRuleUrl evalContext = Except.error err) ∨
          ∃ (ruleUrl : String) (err : GoError),
            env.GetRuleUrl evalContext = Except.ok ruleUrl ∧
            env.DispatchCtx (webhookCmd env this evalContext ruleUrl) = some err)) := by
  by_cases h : evalContext.Rule.State = AlertStateOK ∧ this.AutoResolve = false
  · rw [Notify_skip env this evalContext w h]
    simp [h]
  · cases hurl : env.GetRuleUrl evalContext with
    | error err =>
      rw [Notify_noUrl env this evalContext w err h hurl]
      simp [h]
    | ok ruleUrl =>
      rw [Notify_send env this evalContext w ruleUrl h hurl]
      cases hsend : env.DispatchCtx (webhookCmd env this evalContext ruleUrl) <;>
        simp [h, hsend]

end Pagerduty
